import Mathlib

/-!
# pNaCl_compress: the sender and receiver modules

A shallow embedding of `hello_tutorial_compress.cc` (the sender) and
`hello_tutorial_decompress.cc` (the receiver).

* Byte strings (`std::string`, array buffers, `unsigned char[]`) are lists of
  natural numbers.
* A `pp::WebSocket*` is a natural number (the address of the object).
* Every call that is visible from outside a function (mutex, stack, socket,
  codec, `PostMessage`) is appended to an event log, in program order.
* What the browser, the network and the allocator answer during one session is
  an explicit argument (`World`); the miniLZO codec, a library outside the
  repository, is a function argument.
-/

namespace PNaCl

/-- Byte strings. -/
abbrev Bytes := List Nat

/-- The bytes of a string literal. -/
def ascii (s : String) : Bytes := s.toList.map Char.toNat

/-- `PP_OK` of `ppapi/c/pp_errors.h`. -/
def PP_OK : Int := 0

/-- `PP_ERROR_FAILED` of `ppapi/c/pp_errors.h`. -/
def PP_ERROR_FAILED : Int := -2

/-- `LZO_E_OK` of `lzo/minilzo.h`. -/
def LZO_E_OK : Int := 0

/-- `LZO_E_INPUT_OVERRUN` of `lzo/minilzo.h`. -/
def LZO_E_INPUT_OVERRUN : Int := -4

/-- The size of both `new unsigned char[259271 + 259271 / 16 + 64 + 3]` arrays. -/
def bufferCapacity : Nat := 259271 + 259271 / 16 + 64 + 3

/-- `std::memcpy(dest, src, n)`: the first `n` bytes of `dest` become those of `src`. -/
def memcpy (dest src : Bytes) (n : Nat) : Bytes := src.take n ++ dest.drop n

/-- `pp::VarArrayBuffer(n)`: a new array buffer of `n` bytes, which PPAPI
initialises to zero. -/
def VarArrayBuffer (n : Nat) : Bytes := List.replicate n 0

/-- `std::string(const char*)`: the bytes before the first zero byte. -/
def c_string (mem : Bytes) : Bytes := mem.takeWhile (fun b => b != 0)

/-- The codec writes `out` at the start of the region `mem`. -/
def writeAt (mem out : Bytes) : Bytes := out ++ mem.drop out.length

/-- The text `":OK:"`. -/
def okTag : Bytes := ascii ":OK:"

/-- The text `":ERROR:"`. -/
def errorTag : Bytes := ascii ":ERROR:"

/-! ## The receiver: `hello_tutorial_decompress.cc` -/

namespace Decompress

/-- The calls a receiver session makes, in the order it makes them. -/
inductive Event where
  | mtx_lock
  | mtx_unlock
  | stack_size
  | stack_top
  | stack_pop
  | stack_push (skt : Nat)
  | new_WebSocket (skt : Nat)
  | Connect (skt : Nat)
  | SendMessage (skt : Nat) (data : Bytes)
  | ReceiveMessage (skt : Nat)
  | Close (skt : Nat)
  | delete_skt (skt : Nat)
  | new_uchar_array (n : Nat)
  | lzo1x_decompress (data : Bytes)
  | PostMessage (msg : Bytes)
deriving DecidableEq, Repr

/-- The members of `HelloTutorialInstance` a session reads and writes, with the
log of the calls made so far. The top of `Socket_Stack` is the head of the list;
`mtx` is `true` while the mutex is held. -/
structure Instance where
  Socket_Stack : List Nat
  mtx : Bool
  log : List Event
deriving DecidableEq, Repr

/-- What the environment answers during one receiver session. -/
structure World where
  /-- the address returned by `new pp::WebSocket(this)` -/
  new_skt : Nat
  /-- the result of the blocking `Connect` -/
  connect : Int
  /-- the result of `SendMessage` -/
  send : Int
  /-- the result of the blocking `ReceiveMessage` -/
  receive : Int
  /-- the bytes of the message received -/
  reply : Bytes
  /-- the bytes found at the address of `decompressed` when it is allocated
  (the array is not initialised) -/
  heap : Bytes

/-- The miniLZO call `lzo1x_decompress(data, old_len, out, &new_len, NULL)`: the
return code and the bytes written to `out` (`new_len` is their number). -/
abbrev Decompressor := Bytes → Int × Bytes

/-- Append one call to the log. -/
def Instance.ev (s : Instance) (e : Event) : Instance :=
  { s with log := s.log ++ [e] }

/-- `mtx.lock()`. -/
def mtx_lock (s : Instance) : Instance :=
  { s with mtx := true, log := s.log ++ [Event.mtx_lock] }

/-- `mtx.unlock()`. -/
def mtx_unlock (s : Instance) : Instance :=
  { s with mtx := false, log := s.log ++ [Event.mtx_unlock] }

/-- `Socket_Stack.push(skt)`. -/
def stack_push (skt : Nat) (s : Instance) : Instance :=
  { s with Socket_Stack := skt :: s.Socket_Stack, log := s.log ++ [Event.stack_push skt] }

/-- `Socket_Stack.pop()`. -/
def stack_pop (s : Instance) : Instance :=
  { s with Socket_Stack := s.Socket_Stack.tail, log := s.log ++ [Event.stack_pop] }

/-- `push_socket(r, skt)`, the completion callback of the 75 connects started
by the constructor. -/
def push_socket (_r : Int) (skt : Nat) (s : Instance) : Instance :=
  stack_push skt s

/-- Lines 148-150 of `on_recieve`: `mtx.lock(); Socket_Stack.push(skt); mtx.unlock();`. -/
def release (skt : Nat) (s : Instance) : Instance :=
  mtx_unlock (stack_push skt (mtx_lock s))

/-- `on_recieve(z, message, skt, f_name)`. -/
def on_recieve (lzo : Decompressor) (w : World) (message : Bytes) (skt : Nat)
    (f_name : Bytes) (s : Instance) : Instance :=
  let s := release skt s
  let s := s.ev (Event.new_uchar_array bufferCapacity)
  let decompressed := w.heap
  let s := s.ev (Event.lzo1x_decompress message)
  let decompressed := writeAt decompressed (lzo message).2
  if (lzo message).1 = LZO_E_OK then
    s.ev (Event.PostMessage (f_name ++ okTag ++ c_string decompressed))
  else
    s.ev (Event.PostMessage (f_name ++ errorTag))

/-- `on_connect(z, skt, f_name)`. -/
def on_connect (lzo : Decompressor) (w : World) (skt : Nat) (f_name : Bytes)
    (s : Instance) : Instance :=
  let file_name := memcpy (VarArrayBuffer f_name.length) f_name f_name.length
  let s := s.ev (Event.SendMessage skt file_name)
  let s := s.ev (Event.ReceiveMessage skt)
  if w.receive = PP_OK then
    on_recieve lzo w w.reply skt f_name s
  else
    ((s.ev (Event.PostMessage (f_name ++ errorTag))).ev (Event.Close skt)).ev
      (Event.delete_skt skt)

/-- How `start_web_socket` came by its connection. -/
inductive Acquired where
  | pooled (skt : Nat)
  | connected (skt : Nat)
  | failed (skt : Nat)
deriving DecidableEq, Repr

/-- Lines 108-122 of `start_web_socket` without the calls of `on_connect` and
the error report: the connection is taken from the top of `Socket_Stack`, or
created and connected when the stack is empty. -/
def acquire (w : World) (s : Instance) : Acquired × Instance :=
  let s := mtx_lock s
  let s := s.ev Event.stack_size
  match s.Socket_Stack with
  | [] =>
    let s := mtx_unlock s
    let skt := w.new_skt
    let s := (s.ev (Event.new_WebSocket skt)).ev (Event.Connect skt)
    if w.connect = PP_OK then (Acquired.connected skt, s) else (Acquired.failed skt, s)
  | skt :: _ =>
    let s := s.ev Event.stack_top
    let s := stack_pop s
    let s := mtx_unlock s
    (Acquired.pooled skt, s)

/-- `start_web_socket(r, f_name)`. -/
def start_web_socket (lzo : Decompressor) (w : World) (f_name : Bytes)
    (s : Instance) : Instance :=
  match acquire w s with
  | (Acquired.pooled skt, s) => on_connect lzo w skt f_name s
  | (Acquired.connected skt, s) => on_connect lzo w skt f_name s
  | (Acquired.failed skt, s) =>
    (s.ev (Event.PostMessage (f_name ++ errorTag))).ev (Event.delete_skt skt)

/-- The messages handed to `PostMessage`, in order. -/
def posted : List Event → List Bytes
  | [] => []
  | Event.PostMessage m :: es => m :: posted es
  | _ :: es => posted es

/-- An instance with the given pool, the mutex free and an empty log. -/
def fresh (pool : List Nat) : Instance := { Socket_Stack := pool, mtx := false, log := [] }

/-- The connection a session started on `pool` works with. -/
def usedSkt (w : World) (pool : List Nat) : Nat :=
  match pool with
  | [] => w.new_skt
  | skt :: _ => skt

/-- Scans a log: while the mutex is held (`held = true`) only `Socket_Stack`
calls and `unlock` may occur, `unlock` occurs only while it is held, and the
mutex is free at the end. -/
def lockDiscipline : Bool → List Event → Bool
  | held, [] => !held
  | false, Event.mtx_lock :: es => lockDiscipline true es
  | false, Event.mtx_unlock :: _ => false
  | false, _ :: es => lockDiscipline false es
  | true, Event.mtx_unlock :: es => lockDiscipline false es
  | true, Event.stack_size :: es => lockDiscipline true es
  | true, Event.stack_top :: es => lockDiscipline true es
  | true, Event.stack_pop :: es => lockDiscipline true es
  | true, Event.stack_push _ :: es => lockDiscipline true es
  | true, _ :: _ => false

/-- The steps of a receiver session whose failure the code tests for. -/
inductive Step where
  | connect
  | receive
  | decompress
deriving DecidableEq, Repr

/-- The first step of a session started on `pool` that fails, if one does:
the connect (made only when the pool is empty), the receive, or the
decompression (a return code other than `LZO_E_OK`). -/
def failedStep (lzo : Decompressor) (w : World) (pool : List Nat) : Option Step :=
  if pool = [] ∧ w.connect ≠ PP_OK then some Step.connect
  else if w.receive ≠ PP_OK then some Step.receive
  else if (lzo w.reply).1 ≠ LZO_E_OK then some Step.decompress
  else none

/-- A decompressor that rejects every input. -/
def rejectAll : Decompressor := fun _ => (LZO_E_INPUT_OVERRUN, [])

/-- A decompressor that accepts every input and writes `out`. -/
def acceptWith (out : Bytes) : Decompressor := fun _ => (LZO_E_OK, out)

/-- A world in which connect, send and receive all succeed; the new socket is
at address 1 and the reply is `reply`. -/
def calm (reply heap : Bytes) : World :=
  { new_skt := 1, connect := PP_OK, send := PP_OK, receive := PP_OK, reply := reply,
    heap := heap }

/-- A world in which the connect and the send succeed and the receive fails. -/
def receiveFails : World := { calm [] [] with receive := PP_ERROR_FAILED }

end Decompress

/-! ## The sender: `hello_tutorial_compress.cc` -/

namespace Compress

/-- The calls a sender session makes, in the order it makes them. -/
inductive Event where
  | new_WebSocket (skt : Nat)
  | Connect (skt : Nat)
  | new_uchar_array (n : Nat)
  | PostMessage (msg : Bytes)
  | lzo1x_1_compress (input : Bytes)
  | SendMessage (skt : Nat) (data : Bytes)
  | ReceiveMessage (skt : Nat)
deriving DecidableEq, Repr

/-- What the environment answers during one sender session. -/
structure World where
  /-- the address returned by `new pp::WebSocket(this)` -/
  new_skt : Nat
  /-- the result of `Connect`, delivered to `on_connect` as `z` -/
  connect : Int
  /-- the bytes found at the address of `compressed` when it is allocated
  (the array is not initialised) -/
  heap : Bytes
  /-- the result of `ReceiveMessage`, delivered to `on_recieve` as `z` -/
  receive : Int
  /-- the bytes of the message received -/
  reply : Bytes

/-- The miniLZO call `lzo1x_1_compress(in, in_len, out, &out_len, wrkmem)`: the
return code and the bytes written to `out` (`out_len` is their number). -/
abbrev Compressor := Bytes → Int × Bytes

/-- What `on_connect` leaves behind: the calls it made and the contents of its
two buffers when it returns. -/
structure Connected where
  log : List Event
  compressed : Bytes
  to_server_bin : Bytes
deriving DecidableEq, Repr

/-- `on_recieve(z, message, skt)`. -/
def on_recieve (_z : Int) (message : Bytes) : List Event :=
  [Event.PostMessage message]

/-- `on_connect(z, skt, to_server)`, up to the registration of `on_recieve`. -/
def on_connect (lzo : Compressor) (w : World) (_z : Int) (skt : Nat)
    (to_server : Bytes) : Connected :=
  let compressed := w.heap
  let log := [Event.new_uchar_array bufferCapacity]
  let log := log ++ [Event.PostMessage (ascii "compressing")]
  let log := log ++ [Event.lzo1x_1_compress to_server]
  let compressed := writeAt compressed (lzo to_server).2
  let out_len := (lzo to_server).2.length
  let log := log ++ [Event.PostMessage (ascii "done compressing")]
  let to_server_bin := VarArrayBuffer out_len
  let compressed_container := to_server_bin
  let compressed := memcpy compressed compressed_container out_len
  let log := log ++ [Event.SendMessage skt to_server_bin]
  let log := log ++ [Event.ReceiveMessage skt]
  { log := log, compressed := compressed, to_server_bin := to_server_bin }

/-- `start_web_socket(to_server)` followed by the two callbacks it sets off. -/
def start_web_socket (lzo : Compressor) (w : World) (to_server : Bytes) : List Event :=
  let skt := w.new_skt
  [Event.new_WebSocket skt, Event.Connect skt]
    ++ (on_connect lzo w w.connect skt to_server).log
    ++ on_recieve w.receive w.reply

/-- The payloads handed to `SendMessage`, in order. -/
def sent : List Event → List Bytes
  | [] => []
  | Event.SendMessage _ d :: es => d :: sent es
  | _ :: es => sent es

/-- The sizes of the arrays allocated with `new unsigned char[...]`, in order. -/
def allocated : List Event → List Nat
  | [] => []
  | Event.new_uchar_array n :: es => n :: allocated es
  | _ :: es => allocated es

/-- A sample compressor: the input as one literal run, `17 + n`, the `n` bytes,
then the end marker `17, 0, 0` (the LZO1X framing of an input too short to
hold a match). -/
def literalRun : Compressor := fun p => (LZO_E_OK, [17 + p.length] ++ p ++ [17, 0, 0])

/-- A world whose connect has the result `z`; the new socket is at address 1,
the array `compressed` starts out as `heap`, and the reply is `reply`. -/
def world (z : Int) (heap reply : Bytes) : World :=
  { new_skt := 1, connect := z, heap := heap, receive := PP_OK, reply := reply }

end Compress

end PNaCl

/-! ## Theorems about the receiver -/

namespace PNaCl

namespace Decompress

theorem okTag_eq : okTag = [58, 79, 75, 58] := rfl

theorem errorTag_eq : errorTag = [58, 69, 82, 82, 79, 82, 58] := rfl

theorem okTag_not_prefix_errorTag : ¬ (okTag <+: errorTag) := by
  decide

/-- The one message of a session: the `:OK:` message when no step fails, the
`:ERROR:` message otherwise. -/
theorem posted_session (lzo : Decompressor) (w : World) (f : Bytes) (pool : List Nat) :
    posted (start_web_socket lzo w f (fresh pool)).log =
      [if failedStep lzo w pool = none then
          f ++ okTag ++ c_string (writeAt w.heap (lzo w.reply).2)
        else f ++ errorTag] := by
  cases pool <;> by_cases hc : w.connect = PP_OK <;> by_cases hr : w.receive = PP_OK <;>
    by_cases hd : (lzo w.reply).1 = LZO_E_OK <;>
    simp [start_web_socket, acquire, on_connect, on_recieve, release, mtx_lock, mtx_unlock,
      stack_push, stack_pop, Instance.ev, fresh, posted, failedStep, hc, hr, hd]

/-- The pool at the end of a session: the connection is back on top unless the
connect or the receive failed. -/
theorem stack_session (lzo : Decompressor) (w : World) (f : Bytes) (pool : List Nat) :
    (start_web_socket lzo w f (fresh pool)).Socket_Stack =
      if failedStep lzo w pool = some Step.connect ∨ failedStep lzo w pool = some Step.receive
      then pool.tail else usedSkt w pool :: pool.tail := by
  cases pool <;> by_cases hc : w.connect = PP_OK <;> by_cases hr : w.receive = PP_OK <;>
    by_cases hd : (lzo w.reply).1 = LZO_E_OK <;>
    simp [start_web_socket, acquire, on_connect, on_recieve, release, mtx_lock, mtx_unlock,
      stack_push, stack_pop, Instance.ev, fresh, failedStep, usedSkt, hc, hr, hd]

/-- With distinct pool members and a new socket that is not one of them, the
connection of a session occurs nowhere below the top of the pool. -/
theorem usedSkt_not_mem_tail (w : World) (pool : List Nat) (hnd : pool.Nodup)
    (hfresh : w.new_skt ∉ pool) : usedSkt w pool ∉ pool.tail := by
  cases pool with
  | nil => simp
  | cons a rest => simpa [usedSkt] using (List.nodup_cons.mp hnd).1

/-- The result of `SendMessage` plays no part in a session. -/
theorem send_result_ignored (lzo : Decompressor) (w : World) (r : Int) (f : Bytes)
    (s : Instance) :
    start_web_socket lzo { w with send := r } f s = start_web_socket lzo w f s := by
  cases hs : s.Socket_Stack <;>
    simp [start_web_socket, acquire, on_connect, on_recieve, Instance.ev, mtx_lock,
      mtx_unlock, stack_pop, hs]

/-- C2, counterexample: the pool is empty, connect and receive succeed and the
decompressor rejects the reply. The session posts `a.txt:ERROR:`, and the
connection it used (address 1) is in the pool when it ends. -/
theorem decompress_failure_keeps_connection_pooled :
    failedStep rejectAll (calm [7, 7] []) [] = some Step.decompress ∧
    posted (start_web_socket rejectAll (calm [7, 7] []) (ascii "a.txt") (fresh [])).log =
      [ascii "a.txt:ERROR:"] ∧
    usedSkt (calm [7, 7] []) [] = 1 ∧
    1 ∈ (start_web_socket rejectAll (calm [7, 7] []) (ascii "a.txt") (fresh [])).Socket_Stack := by
  decide

/-- C2, amended: when the connect, the receive or the decompression of a session
fails, the session posts exactly `f ++ ":ERROR:"`; the connection it used is in
the pool at the end exactly when the failing step is the decompression (it was
pushed on entry to `on_recieve`), and is not in the pool after a failed connect
or receive. The pool members are distinct and the new socket is none of them. -/
theorem session_failure_report (lzo : Decompressor) (w : World) (f : Bytes) (pool : List Nat)
    (k : Step) (hnd : pool.Nodup) (hfresh : w.new_skt ∉ pool)
    (hk : failedStep lzo w pool = some k) :
    posted (start_web_socket lzo w f (fresh pool)).log = [f ++ errorTag] ∧
      (usedSkt w pool ∈ (start_web_socket lzo w f (fresh pool)).Socket_Stack ↔
        k = Step.decompress) := by
  have hmem := usedSkt_not_mem_tail w pool hnd hfresh
  refine ⟨by simp [posted_session, hk], ?_⟩
  rw [stack_session, hk]
  cases k <;> simp [hmem]

/-- C2, witness: a session on the pool `[3, 4]` whose receive fails posts
`a.txt:ERROR:` and leaves connection 3 out of the pool. -/
theorem session_failure_report_witness :
    [3, 4].Nodup ∧ receiveFails.new_skt ∉ [3, 4] ∧
    failedStep rejectAll receiveFails [3, 4] = some Step.receive ∧
    posted (start_web_socket rejectAll receiveFails (ascii "a.txt") (fresh [3, 4])).log =
      [ascii "a.txt" ++ errorTag] ∧
    (usedSkt receiveFails [3, 4] ∈
      (start_web_socket rejectAll receiveFails (ascii "a.txt") (fresh [3, 4])).Socket_Stack ↔
        Step.receive = Step.decompress) :=
  ⟨by decide, by decide, by decide,
    session_failure_report rejectAll receiveFails (ascii "a.txt") [3, 4] Step.receive
      (by decide) (by decide) (by decide)⟩

/-- C3, the code at the failing input: the reply decompresses to the three
bytes `O`, `0`, `K`. `on_recieve` posts `a.txt:OK:O`: the content is cut at its
zero byte, so the message is not `a.txt:OK:` followed by the content. -/
theorem on_recieve_truncates_at_zero_byte :
    acceptWith [79, 0, 75] [1, 2] = (LZO_E_OK, [79, 0, 75]) ∧
    posted (on_recieve (acceptWith [79, 0, 75]) (calm [1, 2] [0, 0, 0, 0]) [1, 2] 1
      (ascii "a.txt") (fresh [])).log = [ascii "a.txt:OK:O"] ∧
    ascii "a.txt:OK:O" ≠ ascii "a.txt" ++ ascii ":OK:" ++ [79, 0, 75] := by
  decide

/-- The content `OK` is posted as `a.txt:OK:OK` when the byte that follows it in
the uninitialised array is zero, and runs on into the old bytes when it is not. -/
theorem on_recieve_reads_past_content :
    posted (on_recieve (acceptWith [79, 75]) (calm [1, 2] [88, 89, 0, 90]) [1, 2] 1
      (ascii "a.txt") (fresh [])).log = [ascii "a.txt:OK:OK"] ∧
    posted (on_recieve (acceptWith [79, 75]) (calm [1, 2] [88, 89, 90, 0]) [1, 2] 1
      (ascii "a.txt") (fresh [])).log = [ascii "a.txt:OK:OKZ"] := by
  decide

/-- C4, the code at the failing input: the completion callback `push_socket`
is called with the result `PP_ERROR_FAILED` for the socket 7 on an empty pool.
The socket is pushed, and the next `acquire` hands it out as a pooled
connection. -/
theorem push_socket_pools_failed_connect :
    (push_socket PP_ERROR_FAILED 7 (fresh [])).Socket_Stack = [7] ∧
    (acquire (calm [] []) (push_socket PP_ERROR_FAILED 7 (fresh []))).1 = Acquired.pooled 7 := by
  decide

/-- C5: on every instance, releasing `a` then `b` and acquiring twice yields `b`
then `a`, both taken from the pool; the pool ends as it was before the two
releases, the mutex is free, and the sixteen calls made are mutex and stack
calls only: no `new pp::WebSocket`, no `Connect`. -/
theorem pool_lifo (s : Instance) (a b : Nat) (w₁ w₂ : World) :
    (acquire w₁ (release b (release a s))).1 = Acquired.pooled b ∧
    (acquire w₂ (acquire w₁ (release b (release a s))).2).1 = Acquired.pooled a ∧
    (acquire w₂ (acquire w₁ (release b (release a s))).2).2.Socket_Stack = s.Socket_Stack ∧
    (acquire w₂ (acquire w₁ (release b (release a s))).2).2.mtx = false ∧
    (acquire w₂ (acquire w₁ (release b (release a s))).2).2.log =
      s.log ++ [Event.mtx_lock, Event.stack_push a, Event.mtx_unlock,
        Event.mtx_lock, Event.stack_push b, Event.mtx_unlock,
        Event.mtx_lock, Event.stack_size, Event.stack_top, Event.stack_pop, Event.mtx_unlock,
        Event.mtx_lock, Event.stack_size, Event.stack_top, Event.stack_pop,
        Event.mtx_unlock] := by
  simp [acquire, release, mtx_lock, mtx_unlock, stack_push, stack_pop, Instance.ev]

/-- C7, counterexample: the reply decompresses, with return code `LZO_E_OK`, to
one byte more than the capacity of the array `decompressed`. The session does
not post `a.txt:ERROR:`; it posts a message that starts with `a.txt:OK:`. -/
theorem oversize_reply_reported_ok :
    bufferCapacity < (acceptWith (List.replicate (bufferCapacity + 1) 65) [1, 2]).2.length ∧
    posted (start_web_socket (acceptWith (List.replicate (bufferCapacity + 1) 65))
      (calm [1, 2] []) (ascii "a.txt") (fresh [])).log ≠ [ascii "a.txt" ++ errorTag] ∧
    ∃ m, posted (start_web_socket (acceptWith (List.replicate (bufferCapacity + 1) 65))
      (calm [1, 2] []) (ascii "a.txt") (fresh [])).log = [m] ∧ ascii "a.txt" ++ okTag <+: m := by
  have hf : failedStep (acceptWith (List.replicate (bufferCapacity + 1) 65)) (calm [1, 2] []) []
      = none := by
    simp [failedStep, calm, acceptWith]
  refine ⟨by simp [acceptWith], ?_, ?_⟩
  · rw [posted_session, hf]
    simp [okTag_eq, errorTag_eq]
  · rw [posted_session, hf]
    simp

/-- C7, amended: whatever the decompressed length of the reply, a session posts
`f ++ ":ERROR:"` exactly when one of its steps fails (the connect, the receive,
or `lzo1x_decompress` returning a code other than `LZO_E_OK`), and it posts a
message starting with `f ++ ":OK:"` exactly when none does. The capacity of the
array plays no part. -/
theorem session_error_iff_step_fails (lzo : Decompressor) (w : World) (f : Bytes)
    (pool : List Nat) :
    (posted (start_web_socket lzo w f (fresh pool)).log = [f ++ errorTag] ↔
      failedStep lzo w pool ≠ none) ∧
    ((∃ m, posted (start_web_socket lzo w f (fresh pool)).log = [m] ∧ f ++ okTag <+: m) ↔
      failedStep lzo w pool = none) := by
  rw [posted_session]
  by_cases h : failedStep lzo w pool = none
  · simp [h, okTag_eq, errorTag_eq]
  · simp [h, okTag_not_prefix_errorTag]

/-- C9: in the log of a session, for every pool and every outcome of connect,
receive and decompression, each `mtx.lock()` is followed by `mtx.unlock()` with
only `Socket_Stack` calls in between, and the mutex is free when the session
ends. -/
theorem session_lock_discipline (lzo : Decompressor) (w : World) (f : Bytes)
    (pool : List Nat) :
    lockDiscipline false (start_web_socket lzo w f (fresh pool)).log = true ∧
      (start_web_socket lzo w f (fresh pool)).mtx = false := by
  cases pool <;> by_cases hc : w.connect = PP_OK <;> by_cases hr : w.receive = PP_OK <;>
    by_cases hd : (lzo w.reply).1 = LZO_E_OK <;>
    simp [start_web_socket, acquire, on_connect, on_recieve, release, mtx_lock, mtx_unlock,
      stack_push, stack_pop, Instance.ev, fresh, lockDiscipline, hc, hr, hd]

/-- C10: for every filename, pool and outcome of connect, receive and
decompression, one run of `start_web_socket` posts exactly one message, and
that message starts with `f ++ ":OK:"` or equals `f ++ ":ERROR:"`. -/
theorem session_reports_once (lzo : Decompressor) (w : World) (f : Bytes) (pool : List Nat) :
    ∃ m, posted (start_web_socket lzo w f (fresh pool)).log = [m] ∧
      (f ++ okTag <+: m ∨ m = f ++ errorTag) := by
  refine ⟨_, posted_session lzo w f pool, ?_⟩
  by_cases h : failedStep lzo w pool = none
  · left
    simp [h]
  · right
    simp [h]

end Decompress

/-! ## Theorems about the sender -/

namespace Compress

/-- Whatever the compressor wrote, the payload `on_connect` hands to
`SendMessage` is the new array buffer as it was created: `out_len` zero bytes. -/
theorem sent_on_connect (lzo : Compressor) (w : World) (z : Int) (skt : Nat) (p : Bytes) :
    sent (on_connect lzo w z skt p).log = [List.replicate (lzo p).2.length 0] := by
  simp [on_connect, sent, VarArrayBuffer]

/-- The array `compressed` has the same size for every payload. -/
theorem allocated_on_connect (lzo : Compressor) (w : World) (z : Int) (skt : Nat) (p : Bytes) :
    allocated (on_connect lzo w z skt p).log = [bufferCapacity] := by
  simp [on_connect, allocated]

/-- The array `compressed` is large enough for a payload of at most 259271 bytes. -/
theorem capacity_suffices (n : Nat) (h : n ≤ 259271) : n + n / 16 + 64 + 3 ≤ bufferCapacity := by
  unfold bufferCapacity
  omega

/-- The connect result `z` plays no part in `on_connect`. -/
theorem on_connect_ignores_z (lzo : Compressor) (w : World) (z : Int) (skt : Nat) (p : Bytes) :
    on_connect lzo w z skt p = on_connect lzo w PP_OK skt p := rfl

/-- C1, the code at the failing input: for the payload `hello` the compressor
writes the nine bytes `22, h, e, l, l, o, 17, 0, 0`, and `on_connect` hands nine
zero bytes to `SendMessage` (the `memcpy` copies from the array buffer into
`compressed`). -/
theorem on_connect_sends_zeros_for_hello :
    (literalRun (ascii "hello")).2 = [22, 104, 101, 108, 108, 111, 17, 0, 0] ∧
    sent (on_connect literalRun (world PP_OK [] []) PP_OK 1 (ascii "hello")).log =
      [[0, 0, 0, 0, 0, 0, 0, 0, 0]] ∧
    sent (on_connect literalRun (world PP_OK [] []) PP_OK 1 (ascii "hello")).log ≠
      [(literalRun (ascii "hello")).2] ∧
    (on_connect literalRun (world PP_OK [] []) PP_OK 1 (ascii "hello")).compressed =
      [0, 0, 0, 0, 0, 0, 0, 0, 0] := by
  decide

/-- C6, the code at the failing input: for a payload of 259272 bytes
`on_connect` allocates 275542 bytes for the compression output, fewer than
`259272 + 259272 / 16 + 64 + 3`. -/
theorem on_connect_buffer_too_small :
    (List.replicate 259272 97).length = 259272 ∧
    allocated (on_connect literalRun (world PP_OK [] []) PP_OK 1
      (List.replicate 259272 97)).log = [275542] ∧
    ¬ (275542 ≥ 259272 + 259272 / 16 + 64 + 3) :=
  ⟨List.length_replicate _ _, allocated_on_connect _ _ _ _ _, by decide⟩

/-- C8, the code at the failing input: the connect fails with
`PP_ERROR_FAILED`. The session still compresses the payload `hello` and calls
`SendMessage`, and the messages it posts are the two progress markers and the
reply; none reports the failure. -/
theorem session_ignores_connect_failure :
    start_web_socket literalRun (world PP_ERROR_FAILED [] (ascii "echo")) (ascii "hello") =
      [Event.new_WebSocket 1, Event.Connect 1, Event.new_uchar_array 275542,
        Event.PostMessage (ascii "compressing"),
        Event.lzo1x_1_compress (ascii "hello"),
        Event.PostMessage (ascii "done compressing"),
        Event.SendMessage 1 [0, 0, 0, 0, 0, 0, 0, 0, 0],
        Event.ReceiveMessage 1,
        Event.PostMessage (ascii "echo")] := by
  decide

end Compress

end PNaCl
